import Mathlib

/-!
Verification of the practice-exam platform (React/TypeScript frontend with a
Django-backed question pool).  The exam session state machine is embedded from
the `App` component that appears in two variants in the sources:

* the simplified variant (`src/unnamed/part_009`), which loads questions from
  static JSON files and whose question-loading effect depends only on the exam
  type; and
* the full variant (embedded in
  `src/typescript_simplified_app_with_timer/src/components/ReviewModal.tsx`,
  lines 207-1817), which adds the exam-in-progress lock, the pool-backed
  loading via `utils/api.ts`, and a question-loading effect that additionally
  depends on the current page.

The two variants share the per-question handlers verbatim (`handleTimeUp`,
`handleAnswerSelect`, `handleSubmitAnswer`, `handleNextQuestion`,
`handleReviewNavigation`, `handleRestartExam`, `handleLoginSuccess`,
`handleSignOut`, `calculateScore`, timer effects).  Fields that are pure
render/analytics state (contact form, payment tabs, mobile menu, analytics
timestamps, certificate/testimonial modals) are omitted: no embedded handler
reads them.
-/

namespace PracticeExam

/-- One answer option of a question (`Option` interface in the source:
a letter and its text). -/
structure AnswerOption where
  letter : String
  text : String
deriving DecidableEq, Repr

/-- A question (`Question` interface).  The optional `domain`/`difficulty`
render tags and the duplicated `question`/`questionText` duck-typed text field
are collapsed into the single normalized text used by the session logic. -/
structure Question where
  id : Nat
  questionText : String
  options : List AnswerOption
  correctAnswerLetter : String
  explanation : String
deriving DecidableEq, Repr

/-- The `UserAnswerRecord` interface: the per-question answer record.
`isCorrect` is typed `boolean | null` in TS but every write stores a real
boolean, and `timedOut` is optional but always written. -/
structure UserAnswerRecord where
  selectedLetter : Option String
  isCorrect : Bool
  attempted : Bool
  timedOut : Bool
deriving DecidableEq, Repr

/-- The `PAGES` constants (the full variant adds `home`). -/
inductive Page where
  | home
  | exam
  | contact
  | review
deriving DecidableEq, Repr

/-- The answer map `{ [key: number]: UserAnswerRecord }`: a JS object keyed by
question id, kept here as an insertion-ordered association list (JS objects
with integer-like keys preserve existing entries in place and append new
ones). -/
abbrev AnswerMap := List (Nat × UserAnswerRecord)

/-- Indexing `userAnswers[id]` on the answer map. -/
def findAnswer : AnswerMap → Nat → Option UserAnswerRecord
  | [], _ => none
  | p :: m, k => if p.1 = k then some p.2 else findAnswer m k

/-- The JS spread update `{ ...prev, [id]: record }`: overwrite the entry for
`id` in place if present, otherwise append it. -/
def setAnswer (m : AnswerMap) (id : Nat) (v : UserAnswerRecord) : AnswerMap :=
  if (findAnswer m id).isSome then
    m.map (fun p => if p.1 = id then (id, v) else p)
  else
    m ++ [(id, v)]

/-- Counts `Object.values(userAnswers).filter(answer => answer.isCorrect).length`. -/
def countCorrect (m : AnswerMap) : Nat :=
  (m.filter (fun p => p.2.isCorrect)).length

/-- The state of the `App` component: every `useState` hook read by the
session logic, plus the model-level flag `loadInFlight` standing for the
pending `loadQuestions` fetch promise (not a React state variable itself). -/
structure AppState where
  questions : List Question
  currentQuestionIndex : Nat
  userAnswers : AnswerMap
  selectedAnswerLetter : Option String
  showFeedback : Bool
  currentPage : Page
  currentExamType : String
  isReviewMode : Bool
  timeRemaining : Nat
  timerActive : Bool
  user : Option String
  showLoginModal : Bool
  hasShownLoginPrompt : Bool
  examInProgress : Bool
  showExamInProgressModal : Bool
  pendingExamType : Option String
  isLoadingQuestions : Bool
  loadingError : Option String
  loadInFlight : Bool
deriving DecidableEq, Repr

/-- Handler `handleTimeUp` (part_009 lines 209-231): on timeout, record the current
question as attempted with no selection, not correct, timed out; clear the
selection, show feedback and stop the timer.  Guarded by
`currentQuestionIndex < questions.length`. -/
def handleTimeUp (s : AppState) : AppState :=
  if h : s.currentQuestionIndex < s.questions.length then
    let q := s.questions.get ⟨s.currentQuestionIndex, h⟩
    { s with
      userAnswers := setAnswer s.userAnswers q.id ⟨none, false, true, true⟩
      selectedAnswerLetter := none
      showFeedback := true
      timerActive := false }
  else s

/-- One second of the timer interval effect (part_009 lines 176-198): the
interval exists only while `timerActive && timeRemaining > 0 && !showFeedback
&& !isReviewMode`; on a tick, if the remaining time is `<= 1` it calls
`handleTimeUp` and resets the counter to 90, otherwise it decrements. -/
def tick (s : AppState) : AppState :=
  if s.timerActive ∧ 0 < s.timeRemaining ∧ s.showFeedback = false ∧ s.isReviewMode = false then
    if s.timeRemaining ≤ 1 then
      { handleTimeUp s with timeRemaining := 90 }
    else
      { s with timeRemaining := s.timeRemaining - 1 }
  else s

/-- The question-start effect (part_009 lines 200-207, dependencies
`[currentQuestionIndex, questions, isReviewMode]`): when a question loads
outside review mode, reset the countdown to 90 and start the timer. -/
def startQuestion (s : AppState) : AppState :=
  if s.questions ≠ [] ∧ s.isReviewMode = false then
    { s with timeRemaining := 90, timerActive := true }
  else s

/-- Handler `handleAnswerSelect` (part_009 lines 247-251). -/
def handleAnswerSelect (letter : String) (s : AppState) : AppState :=
  if s.showFeedback ∧ s.isReviewMode then s
  else { s with selectedAnswerLetter := some letter }

/-- Handler `handleSubmitAnswer` (part_009 lines 253-275): guarded by a selection
being present and feedback not already shown; records correctness as the
comparison of the selected letter with the question's correct letter, shows
feedback and stops the timer. -/
def handleSubmitAnswer (s : AppState) : AppState :=
  match s.selectedAnswerLetter with
  | none => s
  | some letter =>
    if s.showFeedback then s
    else if h : s.currentQuestionIndex < s.questions.length then
      let q := s.questions.get ⟨s.currentQuestionIndex, h⟩
      { s with
        userAnswers := setAnswer s.userAnswers q.id
          ⟨some letter, letter = q.correctAnswerLetter, true, false⟩
        showFeedback := true
        timerActive := false }
    else s

/-- Handler `handleNextQuestion` (part_009 lines 277-324).  If more questions remain:
when the next index is 25, the user is unauthenticated and the login prompt
has not been shown, open the login modal, set the prompt flag and do not
advance; otherwise advance, clearing the selection and feedback and resetting
the timer (started only outside review mode).  On the last question, enter
review mode, switch to the review page and stop the timer. -/
def handleNextQuestion (s : AppState) : AppState :=
  if s.currentQuestionIndex < s.questions.length - 1 then
    let nextIdx := s.currentQuestionIndex + 1
    if nextIdx = 25 ∧ s.user = none ∧ s.hasShownLoginPrompt = false then
      { s with showLoginModal := true, hasShownLoginPrompt := true }
    else
      { s with
        currentQuestionIndex := nextIdx
        selectedAnswerLetter := none
        showFeedback := false
        timeRemaining := 90
        timerActive := if s.isReviewMode then s.timerActive else true }
  else
    { s with isReviewMode := true, currentPage := .review, timerActive := false }

/-- Handler `handleReviewNavigation` (part_009 lines 326-338): jump to any index; if
the target question has an answer record, restore its selection and show
feedback, otherwise clear both.  The review grid only offers in-range
indices. -/
def handleReviewNavigation (i : Nat) (s : AppState) : AppState :=
  if h : i < s.questions.length then
    let q := s.questions.get ⟨i, h⟩
    match findAnswer s.userAnswers q.id with
    | some r =>
      { s with currentQuestionIndex := i, selectedAnswerLetter := r.selectedLetter
               showFeedback := true }
    | none =>
      { s with currentQuestionIndex := i, selectedAnswerLetter := none
               showFeedback := false }
  else s

/-- Handler `handleRestartExam` (part_009 lines 340-353): reset index, answers,
selection, feedback and review mode, return to the exam page and restart the
timer at 90.  Note that the question list is not touched. -/
def handleRestartExam (s : AppState) : AppState :=
  { s with
    currentQuestionIndex := 0
    userAnswers := []
    selectedAnswerLetter := none
    showFeedback := false
    isReviewMode := false
    currentPage := .exam
    timeRemaining := 90
    timerActive := true }

/-- Handler `handleLoginSuccess` (part_009 lines 355-369) combined with the Firebase
auth-state update of a successful sign-in: close the modal, advance to the
next question, clear selection and feedback, reset the timer (started only
outside review mode). -/
def handleLoginSuccess (uid : String) (s : AppState) : AppState :=
  { s with
    showLoginModal := false
    user := some uid
    currentQuestionIndex := s.currentQuestionIndex + 1
    selectedAnswerLetter := none
    showFeedback := false
    timeRemaining := 90
    timerActive := if s.isReviewMode then s.timerActive else true }

/-- Handler `handleSignOut` (part_009 lines 371-375): sign out and reset the login
prompt flag "so it can be shown again if needed". -/
def handleSignOut (s : AppState) : AppState :=
  { s with user := none, hasShownLoginPrompt := false }

/-- Handler `handleExamTypeChange` in the simplified variant (part_009 lines
233-239): switch the exam type and go to the exam page, with no
exam-in-progress interception. -/
def handleExamTypeChange (t : String) (s : AppState) : AppState :=
  { s with currentExamType := t, currentPage := .exam }

/-- The success path of the simplified variant's `loadQuestions` effect body
(part_009 lines 139-164): install the fetched list and reset the whole exam
state; the timer is left stopped (the question-start effect then starts
it). -/
def loadQuestionsSuccess (qs : List Question) (s : AppState) : AppState :=
  { s with
    questions := qs
    currentQuestionIndex := 0
    userAnswers := []
    selectedAnswerLetter := none
    showFeedback := false
    isReviewMode := false
    timeRemaining := 90
    timerActive := false
    loadInFlight := false }

/-- The failure path of `loadQuestions` (part_009 lines 166-170). -/
def loadQuestionsFailure (s : AppState) : AppState :=
  { s with questions := [], loadInFlight := false }

/-!  Scoring (`calculateScore`, part_009 lines 409-417; the review summary at
lines 439-453 displays `total - correct` as the incorrect count).  The session
pass flag comes from the full variant's completion branch (ReviewModal.tsx
lines 691 and 708): `percentage = Math.round((score / questions.length) *
100)` and `passed = percentage >= 70`.  `Math.round` on a non-negative value
is `⌊x + 1/2⌋`, written here over `ℚ`. -/

/-- JavaScript `Math.round` for non-negative rational inputs. -/
def mathRound (x : ℚ) : ℤ := ⌊x + 1 / 2⌋

/-- The record returned by `calculateScore`. -/
structure Score where
  correct : Nat
  total : Nat
  percentage : ℤ
deriving DecidableEq, Repr

/-- Function `calculateScore` (part_009 lines 409-417). -/
def calculateScore (questions : List Question) (userAnswers : AnswerMap) : Score :=
  { correct := countCorrect userAnswers
    total := questions.length
    percentage := mathRound ((countCorrect userAnswers : ℚ) / questions.length * 100) }

/-- The incorrect count as displayed by the review summary
(`score.total - score.correct`, part_009 line 447). -/
def scoreIncorrect (sc : Score) : Nat := sc.total - sc.correct

/-- The completion percentage of the full variant (ReviewModal.tsx line
691). -/
def sessionPercentage (score total : Nat) : ℤ :=
  mathRound ((score : ℚ) / total * 100)

/-- Flag `lastExamPassed` of the full variant (ReviewModal.tsx line 708):
`percentage >= 70`. -/
def sessionPassed (score total : Nat) : Bool :=
  70 ≤ sessionPercentage score total

/-- The loading-screen guard of the simplified variant (part_009 lines
419-428): while `questions.length === 0` the app renders only the loading
screen, so the exam/review content (and with it `calculateScore`) is rendered
only for a non-empty question list. -/
def rendersLoadingScreen (s : AppState) : Bool := s.questions.isEmpty

/-!  Full-variant handlers for the exam-in-progress lock
(ReviewModal.tsx lines 582-616, 802-834, 900-934) and its page-dependent
question-loading effect (lines 452-523, dependencies
`[currentExamType, currentPage]` with an early return unless
`currentPage === PAGES.EXAM`).  The fire-and-forget `preGenerateExamQuestions`
call and its transient `isPreGenerating` toggle (set and then cleared within
the same handler) are not modelled. -/

/-- Handler `handleExamTypeChange` of the full variant (ReviewModal.tsx lines
582-616): if an exam is in progress, the target type differs and we are not
in review mode, only record the pending type and surface the
exam-in-progress modal; otherwise switch type and go to the exam page. -/
def handleExamTypeChangeFull (t : String) (s : AppState) : AppState :=
  if s.examInProgress ∧ t ≠ s.currentExamType ∧ s.isReviewMode = false then
    { s with pendingExamType := some t, showExamInProgressModal := true }
  else
    { s with currentExamType := t, currentPage := .exam }

/-- Handler `handleExamSelection` (ReviewModal.tsx lines 900-934, the homepage exam
cards): same interception guard, then switch type and go to the exam page. -/
def handleExamSelection (t : String) (s : AppState) : AppState :=
  if s.examInProgress ∧ t ≠ s.currentExamType ∧ s.isReviewMode = false then
    { s with pendingExamType := some t, showExamInProgressModal := true }
  else
    { s with currentExamType := t, currentPage := .exam }

/-- Handler `handleContinueExam` (ReviewModal.tsx lines 802-809): close the modal,
clear the pending type, and navigate back to the exam page when the modal was
opened from the homepage. -/
def handleContinueExam (s : AppState) : AppState :=
  { s with
    showExamInProgressModal := false
    pendingExamType := none
    currentPage := if s.currentPage = .home then .exam else s.currentPage }

/-- Handler `handleAbandonExam` (ReviewModal.tsx lines 812-834): close the modal,
clear the lock, and if a pending type exists switch to it and reset the exam
state. -/
def handleAbandonExam (s : AppState) : AppState :=
  match s.pendingExamType with
  | some t =>
    { s with
      showExamInProgressModal := false
      examInProgress := false
      currentExamType := t
      currentPage := .exam
      pendingExamType := none
      currentQuestionIndex := 0
      userAnswers := []
      selectedAnswerLetter := none
      showFeedback := false
      isReviewMode := false
      timeRemaining := 90 }
  | none =>
    { s with showExamInProgressModal := false, examInProgress := false }

/-- The synchronous prefix of the full variant's `loadQuestions` effect body
(ReviewModal.tsx lines 456-459): mark loading, clear any error and clear the
question list before the fetch resolves. -/
def beginLoadingFull (s : AppState) : AppState :=
  { s with
    isLoadingQuestions := true
    loadingError := none
    questions := []
    loadInFlight := true }

/-- The full variant's question-loading effect trigger: the effect has
dependencies `[currentExamType, currentPage]` (ReviewModal.tsx line 523) and
returns early unless the current page is the exam page (line 454).  `pre` is
the state of the previous commit, `post` the state after the event handler. -/
def loadEffectFull (pre post : AppState) : AppState :=
  if post.currentPage = .exam ∧
      (post.currentPage ≠ pre.currentPage ∨ post.currentExamType ≠ pre.currentExamType) then
    beginLoadingFull post
  else post

/-- The success path of the full variant's `loadQuestions`
(ReviewModal.tsx lines 461-510): like the simplified one, and additionally
mark the exam as in progress and clear the loading flag. -/
def loadQuestionsSuccessFull (qs : List Question) (s : AppState) : AppState :=
  { loadQuestionsSuccess qs s with
    examInProgress := true
    isLoadingQuestions := false }

/-- Resuming via the exam-in-progress modal in the full variant: run
`handleContinueExam` and then the page-dependent load effect it may have
retriggered. -/
def resumeCurrentExam (s : AppState) : AppState :=
  loadEffectFull s (handleContinueExam s)

/-!  Event model of the simplified variant (part_009).  Each event is a user
interaction, a timer tick, the auth-state change of a sign-in/sign-out, or
the resolution of the question fetch.  `avail` records when the interaction
is offered by the rendered UI:

* while `questions.length === 0` only the loading screen is shown (line 419);
* the answer options and the Submit button are rendered only on the exam page
  outside review mode, Submit only before feedback and with a selection
  (lines 500-641, 625-631), Next only once feedback is shown (lines 633-639);
* in review mode the exam page shows only the score summary, the
  retake/continue buttons and the navigation grid (lines 432-498), so
  navigation targets are always in range and no submit control exists;
* the timer interval exists only under the conditions of line 180;
* the nav bar offers page and exam-type switches and sign-in (when signed
  out) / sign-out (when signed in) at all times;
* the login modal's actions are available while it is shown. -/
inductive Event where
  | selectAnswer (letter : String)
  | submitAnswer
  | nextQuestion
  | tickSecond
  | reviewNavigate (i : Nat)
  | restartExam
  | openLoginModal
  | closeLoginModal
  | loginSuccess (uid : String)
  | signOut
  | examTypeChange (t : String)
  | navExam
  | navContact
  | loadSuccess (qs : List Question)
  | loadFailure
deriving DecidableEq, Repr

/-- The exam content (question card or review summary) is visible. -/
def examUIVisible (s : AppState) : Bool :=
  s.currentPage = .exam ∧ s.questions ≠ []

/-- UI availability of each event in the simplified variant (see `Event`). -/
def avail : Event → AppState → Bool
  | .selectAnswer _ => fun s => examUIVisible s ∧ s.isReviewMode = false
  | .submitAnswer => fun s =>
      examUIVisible s ∧ s.isReviewMode = false ∧ s.showFeedback = false ∧
        s.selectedAnswerLetter ≠ none
  | .nextQuestion => fun s =>
      examUIVisible s ∧ s.isReviewMode = false ∧ s.showFeedback = true
  | .tickSecond => fun s =>
      s.timerActive ∧ 0 < s.timeRemaining ∧ s.showFeedback = false ∧ s.isReviewMode = false
  | .reviewNavigate i => fun s =>
      examUIVisible s ∧ s.isReviewMode = true ∧ i < s.questions.length
  | .restartExam => fun s => examUIVisible s ∧ s.isReviewMode = true
  | .openLoginModal => fun s => s.user = none
  | .closeLoginModal => fun s => s.showLoginModal
  | .loginSuccess _ => fun s => s.showLoginModal ∧ s.user = none
  | .signOut => fun s => s.user ≠ none
  | .examTypeChange _ => fun _ => true
  | .navExam => fun _ => true
  | .navContact => fun _ => true
  | .loadSuccess _ => fun s => s.loadInFlight
  | .loadFailure => fun s => s.loadInFlight

/-- The raw state update of each event (the handler wired to it). -/
def handle : Event → AppState → AppState
  | .selectAnswer letter => handleAnswerSelect letter
  | .submitAnswer => handleSubmitAnswer
  | .nextQuestion => handleNextQuestion
  | .tickSecond => tick
  | .reviewNavigate i => handleReviewNavigation i
  | .restartExam => handleRestartExam
  | .openLoginModal => fun s => { s with showLoginModal := true }
  | .closeLoginModal => fun s => { s with showLoginModal := false }
  | .loginSuccess uid => handleLoginSuccess uid
  | .signOut => handleSignOut
  | .examTypeChange t => handleExamTypeChange t
  | .navExam => fun s => { s with currentPage := .exam }
  | .navContact => fun s => { s with currentPage := .contact }
  | .loadSuccess qs => loadQuestionsSuccess qs
  | .loadFailure => loadQuestionsFailure

/-- Dependencies of the question-start effect changed
(`[currentQuestionIndex, questions, isReviewMode]`, part_009 line 207). -/
def questionDepsChanged (pre post : AppState) : Bool :=
  post.currentQuestionIndex ≠ pre.currentQuestionIndex ∨
    post.questions ≠ pre.questions ∨ post.isReviewMode ≠ pre.isReviewMode

/-- Effects that run after a state update in the simplified variant: the
question-start effect (deps `[currentQuestionIndex, questions,
isReviewMode]`) and the question-loading effect (deps `[currentExamType]`,
part_009 line 174), which puts a new fetch in flight when the exam type
changed. -/
def effectsS (pre post : AppState) : AppState :=
  let s := if questionDepsChanged pre post then startQuestion post else post
  if post.currentExamType ≠ pre.currentExamType then
    { s with loadInFlight := true }
  else s

/-- One step of the simplified variant: apply the handler if the interaction
is available, then the effects. -/
def stepS (e : Event) (s : AppState) : AppState :=
  if avail e s then effectsS s (handle e s) else s

/-- Run a list of events. -/
def runS (s : AppState) (es : List Event) : AppState :=
  es.foldl (fun s e => stepS e s) s

/-- The initial state of the simplified variant: mounted on the exam page
with the first question fetch in flight. -/
def initState : AppState :=
  { questions := []
    currentQuestionIndex := 0
    userAnswers := []
    selectedAnswerLetter := none
    showFeedback := false
    currentPage := .exam
    currentExamType := "solutions_architect"
    isReviewMode := false
    timeRemaining := 90
    timerActive := false
    user := none
    showLoginModal := false
    hasShownLoginPrompt := false
    examInProgress := false
    showExamInProgressModal := false
    pendingExamType := none
    isLoadingQuestions := false
    loadingError := none
    loadInFlight := true }

/-- The advance event triggers the authentication checkpoint at this state:
the Next button is available, more questions remain, the next index is 25,
the user is unauthenticated and the prompt flag is unset (part_009 lines
281-287). -/
def checkpointFires (s : AppState) (e : Event) : Bool :=
  match e with
  | .nextQuestion =>
      avail .nextQuestion s ∧ s.currentQuestionIndex < s.questions.length - 1 ∧
        s.currentQuestionIndex + 1 = 25 ∧ s.user = none ∧ s.hasShownLoginPrompt = false
  | _ => false

/-- Whether the checkpoint fires anywhere along a run of events. -/
def firesAlong (s : AppState) : List Event → Bool
  | [] => false
  | e :: es => checkpointFires s e ∨ firesAlong (stepS e s) es

/-!  The exam-start pipeline of `utils/api.ts`
(`getOrGenerateExamQuestions`, lines 252-320): look up the exams of the
requested type, attempt question generation (whose failure, including the
60-second timeout, is caught and logged but otherwise ignored), then fetch a
random sample and fail only if that sample is empty.  The network calls are
inputs here: `generationResult` is the outcome of
`generateExamQuestionsWithPrompt` and `sampled` the list returned by
`getRandomExamQuestions`. -/

/-- An exam record as returned by `getExamsByType` (api.ts lines 20-30,
fields unused by the modelled control flow omitted). -/
structure Exam where
  id : Nat
  name : String
deriving DecidableEq, Repr

/-- Function `getOrGenerateExamQuestions` (api.ts lines 252-320). -/
def getOrGenerateExamQuestions (exams : List Exam)
    (generationResult : Except String Nat) (sampled : List Question) :
    Except String (List Question) :=
  match exams with
  | [] => .error "No exam found for type"
  | exam :: _ =>
    match generationResult with
    | _ =>
      -- the catch block only logs: "Don't throw error - try to get existing
      -- questions" (api.ts lines 302-306)
      if sampled.isEmpty then .error ("No questions available for " ++ exam.name)
      else .ok sampled

/-!  The pool-enrichment policy.

Modelled from the spec: the Django backend view that implements the §4.1
enrichment policy behind `POST /exams/{id}/generate-questions`
(`backend/exams/views.py`) is not among the sources; only its documentation
(`backend/INTELLIGENT_ENRICHMENT.md`) and its frontend callers are.  Per the
spec: with pool count `C` and target pool size `P` (default 100), if `C < P`
always generate `P - C` questions or the caller-specified amount, whichever
is larger; if `C ≥ P`, draw a Bernoulli trial with enrichment probability
0.15 and on success generate a batch of size uniformly chosen in
`[minBatch, minBatch * 2]` (default `minBatch = 10`), on failure generate
nothing.  The random draws are injectable inputs (spec §9): `bernoulli` is
the trial's outcome and `batchSize` the uniformly drawn batch size. -/
def enrichmentDecision (C P requested : Nat)
    (bernoulli : Bool) (batchSize : Nat) : Nat :=
  if C < P then max (P - C) requested
  else if bernoulli then batchSize else 0

/-- Modelled from the spec: the default target pool size
(`INTELLIGENT_ENRICHMENT.md`: "Target pool size: 100 questions"). -/
def TARGET_POOL_SIZE : Nat := 100

/-- Modelled from the spec: the default minimum enrichment batch
(`MIN_ENRICHMENT_BATCH = 10`). -/
def MIN_ENRICHMENT_BATCH : Nat := 10

/-- Modelled from the spec: the default enrichment probability
(`QUESTION_ENRICHMENT_PROBABILITY = 0.15`); the Bernoulli outcome itself is
an input of `enrichmentDecision`. -/
def ENRICHMENT_PROBABILITY : ℚ := 15 / 100

/-!  Helper lemmas about the answer map. -/

theorem findAnswer_map_overwrite (k : Nat) (v : UserAnswerRecord) (m : AnswerMap) :
    findAnswer (m.map (fun p => if p.1 = k then (k, v) else p)) k
      = if (findAnswer m k).isSome then some v else none := by
  induction m with
  | nil => simp [findAnswer]
  | cons p m ih =>
    by_cases hp : p.1 = k
    · simp [findAnswer, hp]
    · simp [findAnswer, hp, ih]

theorem findAnswer_append_single (k : Nat) (v : UserAnswerRecord) (m : AnswerMap)
    (h : findAnswer m k = none) : findAnswer (m ++ [(k, v)]) k = some v := by
  induction m with
  | nil => simp [findAnswer]
  | cons p m ih =>
    by_cases hp : p.1 = k
    · simp [findAnswer, hp] at h
    · simp [findAnswer, hp] at h ⊢
      exact ih h

/-- Looking up the key just written by `setAnswer` returns the new record. -/
theorem findAnswer_setAnswer_self (m : AnswerMap) (k : Nat) (v : UserAnswerRecord) :
    findAnswer (setAnswer m k v) k = some v := by
  unfold setAnswer
  by_cases h : (findAnswer m k).isSome
  · simp [h, findAnswer_map_overwrite]
  · have hnone : findAnswer m k = none := by
      cases hm : findAnswer m k
      · rfl
      · simp [hm] at h
    simp [h, findAnswer_append_single k v m hnone]

/-!  Helper lemmas about the countdown. -/

theorem handleTimeUp_set_time (s : AppState) (x : Nat) :
    handleTimeUp { s with timeRemaining := x } = { handleTimeUp s with timeRemaining := x } := by
  unfold handleTimeUp
  by_cases h : s.currentQuestionIndex < s.questions.length
  · simp [h]
  · simp [h]

theorem tick_decrement (s : AppState) (hA : s.timerActive = true)
    (hF : s.showFeedback = false) (hR : s.isReviewMode = false)
    (h2 : 2 ≤ s.timeRemaining) :
    tick s = { s with timeRemaining := s.timeRemaining - 1 } := by
  unfold tick
  have h0 : 0 < s.timeRemaining := by omega
  have h1 : ¬ s.timeRemaining ≤ 1 := by omega
  simp [hA, hF, hR, h0, h1]

theorem tick_fires (s : AppState) (hA : s.timerActive = true)
    (hF : s.showFeedback = false) (hR : s.isReviewMode = false)
    (ht : s.timeRemaining = 1) :
    tick s = { handleTimeUp s with timeRemaining := 90 } := by
  unfold tick
  simp [hA, hF, hR, ht]

theorem tick_of_feedback (s : AppState) (h : s.showFeedback = true) : tick s = s := by
  unfold tick
  simp [h]

theorem tick_iterate_countdown : ∀ (k t : Nat) (s : AppState),
    s.timerActive = true → s.showFeedback = false → s.isReviewMode = false →
    s.timeRemaining = t → k < t →
    tick^[k] s = { s with timeRemaining := t - k } := by
  intro k
  induction k with
  | zero =>
    intro t s hA hF hR ht hk
    simp only [Function.iterate_zero_apply, Nat.sub_zero, ← ht]
  | succ k ih =>
    intro t s hA hF hR ht hk
    rw [Function.iterate_succ_apply, tick_decrement s hA hF hR (by omega)]
    have h' := ih (t - 1) { s with timeRemaining := s.timeRemaining - 1 }
      hA hF hR (by simp [ht]) (by omega)
    rw [h']
    congr 1
    omega

theorem tick_iterate_fire (t : Nat) (s : AppState)
    (hA : s.timerActive = true) (hF : s.showFeedback = false)
    (hR : s.isReviewMode = false) (ht : s.timeRemaining = t) (hpos : 0 < t) :
    tick^[t] s = { handleTimeUp s with timeRemaining := 90 } := by
  obtain ⟨k, rfl⟩ : ∃ k, t = k + 1 := ⟨t - 1, by omega⟩
  rw [Function.iterate_succ_apply',
    tick_iterate_countdown k (k + 1) s hA hF hR ht (Nat.lt_succ_self k)]
  have h1 : k + 1 - k = 1 := by omega
  rw [h1, tick_fires { s with timeRemaining := 1 } hA hF hR rfl,
    handleTimeUp_set_time]

/-- C1: for every active (non-review) question, the countdown starts at 90
seconds (the question-start effect) and decrements once per tick; after
`timeRemaining` ticks it triggers exactly one transition to feedback whose
answer record has no selected letter, `isCorrect = false`, `attempted = true`
and `timedOut = true`, with the timer stopped; further ticks change nothing,
so no second timeout fires for the same question. -/
theorem timer_starts_at_90_and_fires_exactly_once
    (s : AppState) (t : Nat)
    (hA : s.timerActive = true) (hF : s.showFeedback = false)
    (hR : s.isReviewMode = false)
    (hq : s.currentQuestionIndex < s.questions.length)
    (ht : s.timeRemaining = t) (hpos : 0 < t) :
    (∀ s' : AppState, s'.questions ≠ [] → s'.isReviewMode = false →
        (startQuestion s').timeRemaining = 90 ∧ (startQuestion s').timerActive = true)
    ∧ (∀ k, k < t →
        (tick^[k] s).showFeedback = false ∧
        (tick^[k] s).userAnswers = s.userAnswers ∧
        (tick^[k] s).timeRemaining = t - k)
    ∧ (tick^[t] s).showFeedback = true
    ∧ (tick^[t] s).timerActive = false
    ∧ (tick^[t] s).selectedAnswerLetter = none
    ∧ (tick^[t] s).currentQuestionIndex = s.currentQuestionIndex
    ∧ findAnswer (tick^[t] s).userAnswers
        (s.questions.get ⟨s.currentQuestionIndex, hq⟩).id = some ⟨none, false, true, true⟩
    ∧ tick (tick^[t] s) = tick^[t] s := by
  have hfire := tick_iterate_fire t s hA hF hR ht hpos
  have hfields :
      (handleTimeUp s).showFeedback = true ∧
      (handleTimeUp s).timerActive = false ∧
      (handleTimeUp s).selectedAnswerLetter = none ∧
      (handleTimeUp s).currentQuestionIndex = s.currentQuestionIndex ∧
      findAnswer (handleTimeUp s).userAnswers
        (s.questions.get ⟨s.currentQuestionIndex, hq⟩).id = some ⟨none, false, true, true⟩ := by
    unfold handleTimeUp
    simp [hq, findAnswer_setAnswer_self]
  refine ⟨?_, ?_, ?_, ?_, ?_, ?_, ?_, ?_⟩
  · intro s' h1 h2
    unfold startQuestion
    simp [h1, h2]
  · intro k hk
    rw [tick_iterate_countdown k t s hA hF hR ht hk]
    exact ⟨hF, rfl, rfl⟩
  · rw [hfire]; exact hfields.1
  · rw [hfire]; exact hfields.2.1
  · rw [hfire]; exact hfields.2.2.1
  · rw [hfire]; exact hfields.2.2.2.1
  · rw [hfire]; exact hfields.2.2.2.2
  · rw [hfire]
    exact tick_of_feedback _ hfields.1

/-- A sample question used by concrete witnesses. -/
def sampleQuestion : Question :=
  ⟨1, "q", [⟨"A", "a"⟩, ⟨"B", "b"⟩], "A", "e"⟩

/-- A concrete active-question state: one question, timer running with two
seconds left. -/
def sampleActiveState : AppState :=
  { initState with
    questions := [sampleQuestion]
    timerActive := true
    timeRemaining := 2
    loadInFlight := false }

/-- Witness for C1 at `sampleActiveState` with two seconds on the clock. -/
theorem timer_fires_witness :
    (tick^[2] sampleActiveState).showFeedback = true ∧
    (tick^[2] sampleActiveState).timerActive = false ∧
    findAnswer (tick^[2] sampleActiveState).userAnswers 1 = some ⟨none, false, true, true⟩ ∧
    tick (tick^[2] sampleActiveState) = tick^[2] sampleActiveState := by
  have h := timer_starts_at_90_and_fires_exactly_once sampleActiveState 2
    rfl rfl rfl (by decide) rfl (by decide)
  exact ⟨h.2.2.1, h.2.2.2.1, h.2.2.2.2.2.2.1, h.2.2.2.2.2.2.2⟩

/-!  Scoring (claims C4 and C10). -/

/-- C4: for a complete answer-record map with `c` correct answers out of `t`
sampled questions, the computed score is `correct = c`, the displayed
incorrect count is `t - c`, the percentage is `Math.round(c / t * 100)`, and
the session passes exactly when the percentage reaches the 70 threshold; in
particular 5 correct out of 50 gives percentage 10 and no pass. -/
theorem score_components_and_pass_threshold
    (qs : List Question) (m : AnswerMap) (hne : qs ≠ []) :
    (calculateScore qs m).correct = countCorrect m
    ∧ (calculateScore qs m).total = qs.length
    ∧ scoreIncorrect (calculateScore qs m) = qs.length - countCorrect m
    ∧ (calculateScore qs m).percentage
        = mathRound ((countCorrect m : ℚ) / qs.length * 100)
    ∧ (sessionPassed (countCorrect m) qs.length = true ↔
        70 ≤ (calculateScore qs m).percentage)
    ∧ (countCorrect m = 5 → qs.length = 50 →
        (calculateScore qs m).percentage = 10 ∧
        sessionPassed (countCorrect m) qs.length = false) := by
  refine ⟨rfl, rfl, rfl, rfl, ?_, ?_⟩
  · simp [sessionPassed, sessionPercentage, calculateScore]
  · intro h5 hlen
    constructor
    · simp only [calculateScore, h5, hlen]
      norm_num [mathRound]
    · simp only [sessionPassed, sessionPercentage, h5, hlen]
      norm_num [mathRound]

/-- One of fifty concrete sample questions for the scoring witness. -/
def witnessQuestion (i : Nat) : Question := ⟨i, "", [], "A", ""⟩

/-- Fifty concrete questions. -/
def fiftyQuestions : List Question := (List.range 50).map witnessQuestion

/-- A concrete complete answer map over the fifty questions with exactly the
first five answered correctly. -/
def fiftyAnswers : AnswerMap :=
  (List.range 50).map (fun i => (i, ⟨some "A", decide (i < 5), true, false⟩))

/-- Witness for C4: 5 correct out of 50 gives percentage 10 and no pass. -/
theorem score_five_of_fifty_witness :
    (calculateScore fiftyQuestions fiftyAnswers).percentage = 10 ∧
    sessionPassed (countCorrect fiftyAnswers) fiftyQuestions.length = false := by
  have h := score_components_and_pass_threshold fiftyQuestions fiftyAnswers
    (by decide) |>.2.2.2.2.2 (by decide) (by decide)
  have hlen : fiftyQuestions.length = 50 := by decide
  exact ⟨h.1, by rw [hlen]; exact h.2⟩

/-- A key is found in the answer map exactly when it occurs among the map's
keys. -/
theorem findAnswer_isSome_iff (m : AnswerMap) (k : Nat) :
    (findAnswer m k).isSome = true ↔ k ∈ m.map Prod.fst := by
  induction m with
  | nil => simp [findAnswer]
  | cons p m ih =>
    by_cases hp : p.1 = k
    · simp [findAnswer, hp]
    · simp [findAnswer, hp, ih, Ne.symm hp]

/-- Splitting a list's length by a boolean test. -/
theorem length_filter_split {α : Type} (l : List α) (p : α → Bool) :
    (l.filter p).length + (l.filter (fun a => !p a)).length = l.length := by
  induction l with
  | nil => simp
  | cons a l ih =>
    cases hpa : p a <;> simp [List.filter_cons, hpa] <;> omega

/-- The number of questions that have an answer record equals the number of
records, provided record keys are distinct question ids. -/
theorem recorded_questions_count (qs : List Question) (m : AnswerMap)
    (hkeys : (m.map Prod.fst).Nodup)
    (hsub : ∀ k ∈ m.map Prod.fst, k ∈ qs.map Question.id)
    (hids : (qs.map Question.id).Nodup) :
    (qs.filter (fun q => (findAnswer m q.id).isSome)).length = m.length := by
  classical
  have hfilter :
      (qs.filter (fun q => (findAnswer m q.id).isSome)).length
        = ((qs.map Question.id).filter (fun k => (findAnswer m k).isSome)).length := by
    rw [List.filter_map, List.length_map]
    rfl
  rw [hfilter]
  have hperm : List.Perm
      ((qs.map Question.id).filter (fun k => (findAnswer m k).isSome))
      (m.map Prod.fst) := by
    rw [List.perm_ext_iff_of_nodup (hids.filter _) hkeys]
    intro k
    simp only [List.mem_filter]
    constructor
    · intro hk
      exact (findAnswer_isSome_iff m k).1 hk.2
    · intro hk
      exact ⟨hsub k hk, (findAnswer_isSome_iff m k).2 hk⟩
  rw [hperm.length_eq, List.length_map]

/-- C10 (implicit): the correct count is the number of records with
`isCorrect = true` while the percentage denominator and the displayed
incorrect count use the full sampled total, so the incorrect count decomposes
as the questions with no record at all plus the records that are not correct;
and the exam/review content is rendered only when the question list is
non-empty, so the percentage's denominator is positive whenever the score is
displayed. -/
theorem unanswered_questions_count_as_incorrect
    (qs : List Question) (m : AnswerMap)
    (hkeys : (m.map Prod.fst).Nodup)
    (hsub : ∀ k ∈ m.map Prod.fst, k ∈ qs.map Question.id)
    (hids : (qs.map Question.id).Nodup) :
    (calculateScore qs m).correct = countCorrect m
    ∧ (calculateScore qs m).percentage
        = mathRound ((countCorrect m : ℚ) / qs.length * 100)
    ∧ scoreIncorrect (calculateScore qs m)
        = (qs.filter (fun q => !(findAnswer m q.id).isSome)).length
          + (m.filter (fun p => !p.2.isCorrect)).length
    ∧ (∀ s : AppState, rendersLoadingScreen s = false → 0 < s.questions.length) := by
  refine ⟨rfl, rfl, ?_, ?_⟩
  · have hrec := recorded_questions_count qs m hkeys hsub hids
    have hsplitq := length_filter_split qs (fun q => (findAnswer m q.id).isSome)
    have hsplitm := length_filter_split m (fun p => p.2.isCorrect)
    have hc : countCorrect m = (m.filter (fun p => p.2.isCorrect)).length := rfl
    show qs.length - countCorrect m = _
    omega
  · intro s hs
    have : ¬ s.questions.isEmpty := by simp [rendersLoadingScreen] at hs; simp [hs]
    cases hq : s.questions with
    | nil => rw [hq] at this; simp at this
    | cons a l => simp [hq]

/-- Witness for C10 at the concrete fifty-question exam with five correct
answers recorded and forty-five incorrect ones. -/
theorem unanswered_incorrect_witness :
    scoreIncorrect (calculateScore fiftyQuestions fiftyAnswers)
      = (fiftyQuestions.filter
          (fun q => !(findAnswer fiftyAnswers q.id).isSome)).length
        + (fiftyAnswers.filter (fun p => !p.2.isCorrect)).length := by
  exact (unanswered_questions_count_as_incorrect fiftyQuestions fiftyAnswers
    (by decide) (by decide) (by decide)).2.2.1

/-!  Pool enrichment (claim C3) and exam-start resilience (claim C6). -/

/-- C3: on an exam-start request with pool count `C` and target pool size
100, if `C < 100` the policy always generates `max (100 - C) requested`
questions (at least filling the pool) before sampling; if `C ≥ 100` it
generates, exactly when the Bernoulli enrichment trial succeeds, a batch
whose uniformly drawn size lies in `[10, 20]`, and otherwise generates
nothing. -/
theorem enrichment_policy_amounts
    (C requested batchSize : Nat) (bernoulli : Bool)
    (hlo : MIN_ENRICHMENT_BATCH ≤ batchSize)
    (hhi : batchSize ≤ 2 * MIN_ENRICHMENT_BATCH) :
    (C < TARGET_POOL_SIZE →
        enrichmentDecision C TARGET_POOL_SIZE requested bernoulli batchSize
          = max (TARGET_POOL_SIZE - C) requested
        ∧ TARGET_POOL_SIZE - C ≤
            enrichmentDecision C TARGET_POOL_SIZE requested bernoulli batchSize)
    ∧ (TARGET_POOL_SIZE ≤ C →
        (bernoulli = true →
            enrichmentDecision C TARGET_POOL_SIZE requested bernoulli batchSize = batchSize
            ∧ 10 ≤ batchSize ∧ batchSize ≤ 20)
        ∧ (bernoulli = false →
            enrichmentDecision C TARGET_POOL_SIZE requested bernoulli batchSize = 0)) := by
  have hM : MIN_ENRICHMENT_BATCH = 10 := rfl
  constructor
  · intro hC
    refine ⟨by simp [enrichmentDecision, hC], ?_⟩
    simp only [enrichmentDecision, if_pos hC]
    omega
  · intro hC
    have hC' : ¬ C < TARGET_POOL_SIZE := by omega
    constructor
    · intro hb
      refine ⟨by simp [enrichmentDecision, hC', hb], by omega, by omega⟩
    · intro hb
      simp [enrichmentDecision, hC', hb]

/-- Witness for C3: pool at 40 fills to the target, and pool at 120 enriches
by the drawn batch of 12 on a successful trial and by nothing on a failed
one. -/
theorem enrichment_policy_witness :
    enrichmentDecision 40 TARGET_POOL_SIZE 50 false 12 = 60
    ∧ enrichmentDecision 120 TARGET_POOL_SIZE 50 true 12 = 12
    ∧ enrichmentDecision 120 TARGET_POOL_SIZE 50 false 12 = 0 := by
  refine ⟨?_, ?_, ?_⟩
  · have h := (enrichment_policy_amounts 40 50 12 false (by decide) (by decide)).1
      (by decide)
    rw [h.1]; decide
  · exact ((enrichment_policy_amounts 120 50 12 true (by decide) (by decide)).2
      (by decide)).1 rfl |>.1
  · exact ((enrichment_policy_amounts 120 50 12 false (by decide) (by decide)).2
      (by decide)).2 rfl

/-- C6: on an exam-start request, if generation fails (including by timeout)
but the sampled pool content is non-empty, the operation still returns the
sampled questions; if the sample is empty the operation fails with a
no-content error; it never returns an empty question list. -/
theorem exam_start_survives_generation_failure
    (exams : List Exam) (generationResult : Except String Nat)
    (sampled : List Question) (hne : exams ≠ []) :
    (sampled ≠ [] →
        getOrGenerateExamQuestions exams generationResult sampled = .ok sampled)
    ∧ (sampled = [] → ∀ exam rest, exams = exam :: rest →
        getOrGenerateExamQuestions exams generationResult sampled
          = .error ("No questions available for " ++ exam.name))
    ∧ (∀ failureMsg : String,
        getOrGenerateExamQuestions exams (.error failureMsg) sampled
          = getOrGenerateExamQuestions exams generationResult sampled)
    ∧ getOrGenerateExamQuestions exams generationResult sampled ≠ .ok [] := by
  match exams with
  | [] => exact absurd rfl hne
  | exam :: rest =>
    refine ⟨?_, ?_, ?_, ?_⟩
    · intro hs
      simp [getOrGenerateExamQuestions, hs]
    · intro hs exam' rest' heq
      cases heq
      simp [getOrGenerateExamQuestions, hs]
    · intro failureMsg
      rfl
    · by_cases hs : sampled = []
      · simp [getOrGenerateExamQuestions, hs]
      · intro h
        have hok : getOrGenerateExamQuestions (exam :: rest) generationResult sampled
            = .ok sampled := by
          simp [getOrGenerateExamQuestions, hs]
        rw [hok] at h
        exact hs (Except.ok.inj h)

/-- Witness for C6: with one exam, failed generation and a one-question
sample, the exam still starts with that sample; with an empty sample it
fails with the no-content error. -/
theorem exam_start_witness :
    getOrGenerateExamQuestions [⟨1, "AWS SA"⟩] (.error "timed out") [sampleQuestion]
      = .ok [sampleQuestion]
    ∧ getOrGenerateExamQuestions [⟨1, "AWS SA"⟩] (.error "timed out") []
      = .error "No questions available for AWS SA" := by
  constructor
  · exact (exam_start_survives_generation_failure [⟨1, "AWS SA"⟩]
      (.error "timed out") [sampleQuestion] (by decide)).1 (by decide)
  · exact (exam_start_survives_generation_failure [⟨1, "AWS SA"⟩]
      (.error "timed out") [] (by decide)).2.1 rfl ⟨1, "AWS SA"⟩ [] rfl

/-!  The post-handler effects only touch the timer and the fetch flag. -/

theorem effectsS_frame (pre post : AppState) :
    (effectsS pre post).userAnswers = post.userAnswers
    ∧ (effectsS pre post).isReviewMode = post.isReviewMode
    ∧ (effectsS pre post).currentQuestionIndex = post.currentQuestionIndex
    ∧ (effectsS pre post).questions = post.questions
    ∧ (effectsS pre post).showFeedback = post.showFeedback
    ∧ (effectsS pre post).selectedAnswerLetter = post.selectedAnswerLetter
    ∧ (effectsS pre post).showLoginModal = post.showLoginModal
    ∧ (effectsS pre post).hasShownLoginPrompt = post.hasShownLoginPrompt
    ∧ (effectsS pre post).user = post.user
    ∧ (effectsS pre post).currentPage = post.currentPage := by
  unfold effectsS startQuestion
  by_cases h1 : questionDepsChanged pre post <;>
    by_cases h2 : post.questions ≠ [] ∧ post.isReviewMode = false <;>
      by_cases h3 : post.currentExamType ≠ pre.currentExamType <;>
        simp [h1, h2, h3]

/-- In review mode the question-start effect never restarts the timer. -/
theorem effectsS_timerActive_of_review (pre post : AppState)
    (h : post.isReviewMode = true) :
    (effectsS pre post).timerActive = post.timerActive := by
  unfold effectsS startQuestion
  by_cases h1 : questionDepsChanged pre post <;>
    by_cases h3 : post.currentExamType ≠ pre.currentExamType <;>
      simp [h1, h3, h]

/-- The effects are a no-op when neither their dependencies nor the exam
type changed. -/
theorem effectsS_noop (pre post : AppState)
    (h1 : post.currentQuestionIndex = pre.currentQuestionIndex)
    (h2 : post.questions = pre.questions)
    (h3 : post.isReviewMode = pre.isReviewMode)
    (h4 : post.currentExamType = pre.currentExamType) :
    effectsS pre post = post := by
  unfold effectsS
  have hd : questionDepsChanged pre post = false := by
    simp [questionDepsChanged, h1, h2, h3]
  simp [hd, h4]

theorem handleTimeUp_frame (s : AppState) :
    (handleTimeUp s).currentQuestionIndex = s.currentQuestionIndex
    ∧ (handleTimeUp s).questions = s.questions
    ∧ (handleTimeUp s).isReviewMode = s.isReviewMode
    ∧ (handleTimeUp s).currentExamType = s.currentExamType := by
  unfold handleTimeUp
  by_cases hq : s.currentQuestionIndex < s.questions.length <;> simp [hq]

theorem handleReviewNavigation_frame (i : Nat) (s : AppState) :
    (handleReviewNavigation i s).userAnswers = s.userAnswers
    ∧ (handleReviewNavigation i s).timerActive = s.timerActive
    ∧ (handleReviewNavigation i s).isReviewMode = s.isReviewMode
    ∧ (handleReviewNavigation i s).questions = s.questions
    ∧ (handleReviewNavigation i s).hasShownLoginPrompt = s.hasShownLoginPrompt := by
  unfold handleReviewNavigation
  by_cases h : i < s.questions.length
  · rw [dif_pos h]
    simp only []
    cases hfa : findAnswer s.userAnswers (s.questions.get ⟨i, h⟩).id <;> simp [hfa]
  · rw [dif_neg h]
    simp

theorem handleReviewNavigation_index (i : Nat) (s : AppState)
    (h : i < s.questions.length) :
    (handleReviewNavigation i s).currentQuestionIndex = i := by
  unfold handleReviewNavigation
  rw [dif_pos h]
  simp only []
  cases hfa : findAnswer s.userAnswers (s.questions.get ⟨i, h⟩).id <;> simp [hfa]

/-- C5: in review mode, navigation to any question index of the session is
allowed, but as long as the session stays in review mode no event changes
the answer-record map or the timer flag, and the countdown never ticks. -/
theorem review_mode_is_read_only
    (s : AppState) (e : Event) (hrev : s.isReviewMode = true) :
    ((stepS e s).isReviewMode = true →
        (stepS e s).userAnswers = s.userAnswers
        ∧ (stepS e s).timerActive = s.timerActive)
    ∧ tick s = s
    ∧ (∀ i, i < s.questions.length → s.currentPage = .exam → s.questions ≠ [] →
        (stepS (.reviewNavigate i) s).currentQuestionIndex = i) := by
  have htick : tick s = s := by unfold tick; simp [hrev]
  refine ⟨?_, htick, ?_⟩
  · by_cases ha : avail e s = true
    · intro hr'
      have hstep : stepS e s = effectsS s (handle e s) := by
        unfold stepS
        simp [ha]
      obtain ⟨hu, hr, hi, hq, hf, hsel, hlm, hflag, huser, hpage⟩ :=
        effectsS_frame s (handle e s)
      rw [hstep] at hr' ⊢
      have hrpost : (handle e s).isReviewMode = true := by rw [← hr]; exact hr'
      have htimer := effectsS_timerActive_of_review s (handle e s) hrpost
      rw [hu, htimer]
      cases e with
      | selectAnswer l => simp [avail, hrev] at ha
      | submitAnswer => simp [avail, hrev] at ha
      | nextQuestion => simp [avail, hrev] at ha
      | tickSecond => simp [avail, hrev] at ha
      | reviewNavigate i =>
        have hfr := handleReviewNavigation_frame i s
        exact ⟨hfr.1, hfr.2.1⟩
      | restartExam => simp [handle, handleRestartExam] at hrpost
      | openLoginModal => exact ⟨rfl, rfl⟩
      | closeLoginModal => exact ⟨rfl, rfl⟩
      | loginSuccess uid =>
        refine ⟨rfl, ?_⟩
        simp [handle, handleLoginSuccess, hrev]
      | signOut => exact ⟨rfl, rfl⟩
      | examTypeChange t => exact ⟨rfl, rfl⟩
      | navExam => exact ⟨rfl, rfl⟩
      | navContact => exact ⟨rfl, rfl⟩
      | loadSuccess qs => simp [handle, loadQuestionsSuccess] at hrpost
      | loadFailure => exact ⟨rfl, rfl⟩
    · intro _
      have hstep : stepS e s = s := by
        unfold stepS
        simp [ha]
      rw [hstep]
      exact ⟨rfl, rfl⟩
  · intro i hi hpage hqs
    have ha : avail (.reviewNavigate i) s = true := by
      simp [avail, examUIVisible, hpage, hqs, hrev, hi]
    have hstep : stepS (.reviewNavigate i) s
        = effectsS s (handle (.reviewNavigate i) s) := by
      unfold stepS
      simp [ha]
    rw [hstep, (effectsS_frame s _).2.2.1]
    exact handleReviewNavigation_index i s hi

/-- A concrete review-mode state over two questions, both answered. -/
def reviewState : AppState :=
  { initState with
    questions := [sampleQuestion, ⟨2, "q2", [⟨"A", "a"⟩, ⟨"B", "b"⟩], "B", ""⟩]
    currentQuestionIndex := 1
    userAnswers := [(1, ⟨some "A", true, true, false⟩), (2, ⟨some "A", false, true, false⟩)]
    showFeedback := true
    isReviewMode := true
    currentPage := .exam
    timerActive := false
    loadInFlight := false }

/-- Witness for C5: navigating to question 0 in the concrete review state
keeps the answer map and the stopped timer, and reaches index 0. -/
theorem review_mode_witness :
    ((stepS (.reviewNavigate 0) reviewState).isReviewMode = true →
        (stepS (.reviewNavigate 0) reviewState).userAnswers = reviewState.userAnswers
        ∧ (stepS (.reviewNavigate 0) reviewState).timerActive = reviewState.timerActive)
    ∧ tick reviewState = reviewState
    ∧ (stepS (.reviewNavigate 0) reviewState).currentQuestionIndex = 0 := by
  have h := review_mode_is_read_only reviewState (.reviewNavigate 0) rfl
  exact ⟨h.1, h.2.1, h.2.2 0 (by decide) rfl (by decide)⟩

/-!  Leaving the active-question state (claim C9). -/

/-- C9 (amended): from an active (non-review, no-feedback) question state,
the feedback state is entered only by explicit submission or by a timer
tick; submission records correctness as the comparison of the selected
letter with the question's correct letter (attempted, not timed out) and
stops the timer, and the firing tick records the timed-out record.  However,
the active question can also be left without feedback: a successful sign-in
from the login modal advances to the next question recording no answer. -/
theorem question_active_exits
    (s : AppState) (e : Event)
    (hrev : s.isReviewMode = false) (hF : s.showFeedback = false) :
    ((stepS e s).showFeedback = true → (e = .submitAnswer ∨ e = .tickSecond))
    ∧ (∀ l, s.selectedAnswerLetter = some l →
        ∀ h : s.currentQuestionIndex < s.questions.length,
        stepS .submitAnswer s
          = if avail .submitAnswer s then
              { s with
                userAnswers := setAnswer s.userAnswers
                  (s.questions.get ⟨s.currentQuestionIndex, h⟩).id
                  ⟨some l,
                   decide (l = (s.questions.get ⟨s.currentQuestionIndex, h⟩).correctAnswerLetter),
                   true, false⟩
                showFeedback := true
                timerActive := false }
            else s)
    ∧ (avail .tickSecond s = true → s.timeRemaining = 1 →
        stepS .tickSecond s = { handleTimeUp s with timeRemaining := 90 })
    ∧ (∀ uid, s.showLoginModal = true → s.user = none →
        (stepS (.loginSuccess uid) s).currentQuestionIndex = s.currentQuestionIndex + 1
        ∧ (stepS (.loginSuccess uid) s).userAnswers = s.userAnswers
        ∧ (stepS (.loginSuccess uid) s).showFeedback = false) := by
  refine ⟨?_, ?_, ?_, ?_⟩
  · by_cases ha : avail e s = true
    · have hstep : stepS e s = effectsS s (handle e s) := by
        unfold stepS
        simp [ha]
      rw [hstep, (effectsS_frame s (handle e s)).2.2.2.2.1]
      cases e with
      | selectAnswer l =>
        intro hcontra
        simp [handle, handleAnswerSelect, hrev, hF] at hcontra
      | submitAnswer => intro _; exact Or.inl rfl
      | nextQuestion => simp [avail, hF] at ha
      | tickSecond => intro _; exact Or.inr rfl
      | reviewNavigate i => simp [avail, hrev] at ha
      | restartExam => simp [avail, hrev] at ha
      | openLoginModal => intro hcontra; simp [handle, hF] at hcontra
      | closeLoginModal => intro hcontra; simp [handle, hF] at hcontra
      | loginSuccess uid =>
        intro hcontra
        simp [handle, handleLoginSuccess] at hcontra
      | signOut => intro hcontra; simp [handle, handleSignOut, hF] at hcontra
      | examTypeChange t =>
        intro hcontra
        simp [handle, handleExamTypeChange, hF] at hcontra
      | navExam => intro hcontra; simp [handle, hF] at hcontra
      | navContact => intro hcontra; simp [handle, hF] at hcontra
      | loadSuccess qs =>
        intro hcontra
        simp [handle, loadQuestionsSuccess] at hcontra
      | loadFailure =>
        intro hcontra
        simp [handle, loadQuestionsFailure, hF] at hcontra
    · have hstep : stepS e s = s := by
        unfold stepS
        simp [ha]
      rw [hstep, hF]
      intro hcontra
      cases hcontra
  · intro l hl h
    by_cases ha : avail .submitAnswer s = true
    · rw [if_pos ha]
      have hstep : stepS .submitAnswer s = effectsS s (handleSubmitAnswer s) := by
        unfold stepS
        simp [ha, handle]
      have hpost : handleSubmitAnswer s
          = { s with
              userAnswers := setAnswer s.userAnswers
                (s.questions.get ⟨s.currentQuestionIndex, h⟩).id
                ⟨some l,
                 decide (l = (s.questions.get ⟨s.currentQuestionIndex, h⟩).correctAnswerLetter),
                 true, false⟩
              showFeedback := true
              timerActive := false } := by
        unfold handleSubmitAnswer
        rw [hl]
        simp [hF, h]
      have heff : effectsS s (handleSubmitAnswer s) = handleSubmitAnswer s := by
        refine effectsS_noop s (handleSubmitAnswer s) ?_ ?_ ?_ ?_ <;> rw [hpost]
      rw [hstep, heff, hpost]
    · rw [if_neg ha]
      unfold stepS
      simp [ha]
  · intro ha ht1
    have hguard : s.timerActive = true := by
      simp [avail] at ha
      exact ha.1
    have hstep : stepS .tickSecond s = effectsS s (tick s) := by
      unfold stepS
      simp [ha, handle]
    have hfire := tick_fires s hguard hF hrev ht1
    obtain ⟨ht1', ht2', ht3', ht4'⟩ := handleTimeUp_frame s
    have heff : effectsS s (tick s) = tick s := by
      refine effectsS_noop s (tick s) ?_ ?_ ?_ ?_ <;> rw [hfire]
      · exact ht1'
      · exact ht2'
      · exact ht3'
      · exact ht4'
    rw [hstep, heff, hfire]
  · intro uid hlm huser
    have ha : avail (.loginSuccess uid) s = true := by
      simp [avail, hlm, huser]
    have hstep : stepS (.loginSuccess uid) s
        = effectsS s (handleLoginSuccess uid s) := by
      unfold stepS
      simp [ha, handle]
    obtain ⟨hu, _, hi, _, hf, _⟩ := effectsS_frame s (handleLoginSuccess uid s)
    rw [hstep, hu, hi, hf]
    exact ⟨rfl, rfl, rfl⟩

/-- A concrete active-question state with the login modal open (opened from
the navigation bar) and no answer selected. -/
def activeLoginState : AppState :=
  { initState with
    questions := [sampleQuestion, ⟨2, "q2", [⟨"A", "a"⟩, ⟨"B", "b"⟩], "B", ""⟩]
    timerActive := true
    timeRemaining := 50
    showLoginModal := true
    loadInFlight := false }

/-- Counterexample to C9 as stated: a successful sign-in from the login
modal leaves the active question without submission or timeout — the index
advances, no feedback is shown and no answer record is created for the
skipped question. -/
theorem login_success_skips_question :
    activeLoginState.showFeedback = false
    ∧ activeLoginState.isReviewMode = false
    ∧ activeLoginState.userAnswers = []
    ∧ (stepS (.loginSuccess "uid") activeLoginState).currentQuestionIndex = 1
    ∧ (stepS (.loginSuccess "uid") activeLoginState).showFeedback = false
    ∧ findAnswer (stepS (.loginSuccess "uid") activeLoginState).userAnswers 1 = none := by
  decide

/-- A concrete active state ready to submit the correct answer. -/
def submitReadyState : AppState :=
  { sampleActiveState with selectedAnswerLetter := some "A" }

/-- Witness for C9 at `submitReadyState`: submitting records the correct
answer, shows feedback and stops the timer. -/
theorem question_active_exits_witness :
    stepS .submitAnswer submitReadyState
      = { submitReadyState with
          userAnswers := setAnswer submitReadyState.userAnswers 1 ⟨some "A", true, true, false⟩
          showFeedback := true
          timerActive := false } := by
  have h := (question_active_exits submitReadyState .submitAnswer rfl rfl).2.1
    "A" rfl (by decide)
  rw [h]
  rfl

/-!  Restarting from review mode (claim C8). -/

/-- C8 (amended): restarting the exam from review mode resets the question
index to 0 with an empty answer-record map, leaves review mode for the exam
page and resets the timer to 90 seconds running — but it keeps the very same
question list: no loading phase is re-entered and no fresh sample is drawn,
because the simplified variant's question-loading effect depends only on the
exam type. -/
theorem restart_resets_but_reuses_list (s : AppState)
    (hpage : s.currentPage = .exam) (hqs : s.questions ≠ [])
    (hrev : s.isReviewMode = true) :
    stepS .restartExam s
      = { s with
          currentQuestionIndex := 0
          userAnswers := []
          selectedAnswerLetter := none
          showFeedback := false
          isReviewMode := false
          currentPage := .exam
          timeRemaining := 90
          timerActive := true } := by
  have ha : avail .restartExam s = true := by
    simp [avail, examUIVisible, hpage, hqs, hrev]
  unfold stepS
  simp only [ha, if_true]
  show effectsS s (handleRestartExam s) = _
  unfold effectsS
  have hd : questionDepsChanged s (handleRestartExam s) = true := by
    simp [questionDepsChanged, handleRestartExam, hrev]
  have hst : startQuestion (handleRestartExam s) = handleRestartExam s := by
    unfold startQuestion handleRestartExam
    simp [hqs]
  have hty : ¬ (handleRestartExam s).currentExamType ≠ s.currentExamType := by
    simp [handleRestartExam]
  simp only [hd, if_true, hst, hty, ite_false, ite_self, if_neg (not_not_intro rfl)]
  rfl

/-- Counterexample to C8 as stated: restarting from the concrete review
state keeps the identical question list — no new fetch goes in flight and
the supposedly fresh sample is just the previous session's list. -/
theorem restart_keeps_previous_question_list :
    (stepS .restartExam reviewState).questions = reviewState.questions
    ∧ (stepS .restartExam reviewState).loadInFlight = false
    ∧ (stepS .restartExam reviewState).isReviewMode = false
    ∧ (stepS .restartExam reviewState).currentQuestionIndex = 0
    ∧ (stepS .restartExam reviewState).userAnswers = []
    ∧ reviewState.questions ≠ [] := by
  decide

/-- Witness for the amended C8 at the concrete review state. -/
theorem restart_resets_witness :
    stepS .restartExam reviewState
      = { reviewState with
          currentQuestionIndex := 0
          userAnswers := []
          selectedAnswerLetter := none
          showFeedback := false
          isReviewMode := false
          currentPage := .exam
          timeRemaining := 90
          timerActive := true } := by
  exact restart_resets_but_reuses_list reviewState rfl (by decide) rfl

/-!  The exam-in-progress lock of the full variant (claim C7). -/

/-- C7 (amended): while an exam is in progress, attempting to start a
different exam type — from the navigation bar or from the homepage cards —
changes nothing but surfacing the resume/abandon modal with the pending
type; choosing resume from the exam page leaves the answer-record map,
question index, question list and exam type untouched and dismisses the
modal.  (Resuming from the homepage instead re-triggers the page-dependent
question load; see the counterexample.) -/
theorem exam_lock_surfaces_choice (s : AppState) (t : String)
    (hip : s.examInProgress = true) (hdiff : t ≠ s.currentExamType)
    (hrev : s.isReviewMode = false) :
    handleExamTypeChangeFull t s
      = { s with pendingExamType := some t, showExamInProgressModal := true }
    ∧ handleExamSelection t s
      = { s with pendingExamType := some t, showExamInProgressModal := true }
    ∧ (s.currentPage = .exam →
        (resumeCurrentExam (handleExamTypeChangeFull t s)).userAnswers = s.userAnswers
        ∧ (resumeCurrentExam (handleExamTypeChangeFull t s)).currentQuestionIndex
            = s.currentQuestionIndex
        ∧ (resumeCurrentExam (handleExamTypeChangeFull t s)).questions = s.questions
        ∧ (resumeCurrentExam (handleExamTypeChangeFull t s)).currentExamType
            = s.currentExamType
        ∧ (resumeCurrentExam (handleExamTypeChangeFull t s)).showExamInProgressModal
            = false) := by
  have hmodal : handleExamTypeChangeFull t s
      = { s with pendingExamType := some t, showExamInProgressModal := true } := by
    unfold handleExamTypeChangeFull
    simp [hip, hdiff, hrev]
  have hsel : handleExamSelection t s
      = { s with pendingExamType := some t, showExamInProgressModal := true } := by
    unfold handleExamSelection
    simp [hip, hdiff, hrev]
  refine ⟨hmodal, hsel, ?_⟩
  intro hpage
  rw [hmodal]
  unfold resumeCurrentExam handleContinueExam loadEffectFull
  simp [hpage]

/-- A concrete mid-exam state in which the user went back to the homepage:
the exam lock is set and one answer is already recorded. -/
def lockedHomeState : AppState :=
  { initState with
    questions := [sampleQuestion]
    currentQuestionIndex := 0
    userAnswers := [(1, ⟨some "A", true, true, false⟩)]
    showFeedback := true
    examInProgress := true
    currentPage := .home
    loadInFlight := false }

/-- Counterexample to C7 as stated: attempting to start a different exam
from the homepage surfaces the modal with no other change, but choosing
resume navigates back to the exam page, whose page-dependent load effect
re-enters loading (clearing the questions) and, once the reload resolves,
resets the answer-record map — so resume does not leave the session
untouched. -/
theorem exam_lock_resume_from_home_reloads :
    (handleExamTypeChangeFull "cloud_practitioner" lockedHomeState).showExamInProgressModal
        = true
    ∧ (handleExamTypeChangeFull "cloud_practitioner" lockedHomeState).userAnswers
        = lockedHomeState.userAnswers
    ∧ (resumeCurrentExam
        (handleExamTypeChangeFull "cloud_practitioner" lockedHomeState)).isLoadingQuestions
        = true
    ∧ (resumeCurrentExam
        (handleExamTypeChangeFull "cloud_practitioner" lockedHomeState)).questions = []
    ∧ (loadQuestionsSuccessFull [sampleQuestion]
        (resumeCurrentExam
          (handleExamTypeChangeFull "cloud_practitioner" lockedHomeState))).userAnswers = []
    ∧ lockedHomeState.userAnswers ≠ [] := by
  decide

/-- The same locked state as seen from the exam page. -/
def lockedExamState : AppState :=
  { lockedHomeState with currentPage := .exam }

/-- Witness for the amended C7 at `lockedExamState`. -/
theorem exam_lock_witness :
    handleExamTypeChangeFull "cloud_practitioner" lockedExamState
      = { lockedExamState with
          pendingExamType := some "cloud_practitioner"
          showExamInProgressModal := true }
    ∧ (resumeCurrentExam
        (handleExamTypeChangeFull "cloud_practitioner" lockedExamState)).userAnswers
        = lockedExamState.userAnswers
    ∧ (resumeCurrentExam
        (handleExamTypeChangeFull "cloud_practitioner" lockedExamState)).currentQuestionIndex
        = lockedExamState.currentQuestionIndex := by
  have h := exam_lock_surfaces_choice lockedExamState "cloud_practitioner"
    rfl (by decide) rfl
  exact ⟨h.1, (h.2.2 rfl).1, (h.2.2 rfl).2.1⟩

/-!  The authentication checkpoint (claim C2). -/

/-- No event other than signing out clears the login-prompt flag. -/
theorem stepS_flag_stays (s : AppState) (e : Event)
    (hflag : s.hasShownLoginPrompt = true) (hne : e ≠ .signOut) :
    (stepS e s).hasShownLoginPrompt = true := by
  by_cases ha : avail e s = true
  · have hstep : stepS e s = effectsS s (handle e s) := by
      unfold stepS
      simp [ha]
    rw [hstep, (effectsS_frame s (handle e s)).2.2.2.2.2.2.2.1]
    cases e with
    | selectAnswer l =>
      show (handleAnswerSelect l s).hasShownLoginPrompt = true
      unfold handleAnswerSelect
      split <;> exact hflag
    | submitAnswer =>
      show (handleSubmitAnswer s).hasShownLoginPrompt = true
      unfold handleSubmitAnswer
      repeat' split
      all_goals exact hflag
    | nextQuestion =>
      show (handleNextQuestion s).hasShownLoginPrompt = true
      unfold handleNextQuestion
      simp only []
      repeat' split
      all_goals first | rfl | exact hflag
    | tickSecond =>
      show (tick s).hasShownLoginPrompt = true
      unfold tick handleTimeUp
      repeat' split
      all_goals exact hflag
    | reviewNavigate i =>
      exact (handleReviewNavigation_frame i s).2.2.2.2.trans hflag
    | restartExam => exact hflag
    | openLoginModal => exact hflag
    | closeLoginModal => exact hflag
    | loginSuccess uid => exact hflag
    | signOut => exact absurd rfl hne
    | examTypeChange t => exact hflag
    | navExam => exact hflag
    | navContact => exact hflag
    | loadSuccess qs => exact hflag
    | loadFailure => exact hflag
  · have hstep : stepS e s = s := by
      unfold stepS
      simp [ha]
    rw [hstep]
    exact hflag

/-- C2 (amended): the authentication checkpoint is guarded by the persistent
`hasShownLoginPrompt` flag rather than a per-session marker.  When the
advance action is available and more questions remain: the checkpoint fires
exactly when the next index is 25, the user is unauthenticated and the flag
is unset; firing suspends the advance (only the modal and the flag change)
and a successful login then resumes exactly into index 25; an authenticated
user, or a set flag, is never interrupted and the advance proceeds; and the
flag is cleared only by signing out — never by restarting, so a restarted
session in which the checkpoint has not yet fired is still not
interrupted. -/
theorem checkpoint_guarded_by_flag (s : AppState)
    (ha : avail .nextQuestion s = true)
    (hlt : s.currentQuestionIndex < s.questions.length - 1) :
    (checkpointFires s .nextQuestion = true ↔
        (s.currentQuestionIndex + 1 = 25 ∧ s.user = none ∧ s.hasShownLoginPrompt = false))
    ∧ (checkpointFires s .nextQuestion = true →
        stepS .nextQuestion s
          = { s with showLoginModal := true, hasShownLoginPrompt := true }
        ∧ ∀ uid, (stepS (.loginSuccess uid)
            { s with showLoginModal := true, hasShownLoginPrompt := true }).currentQuestionIndex
              = s.currentQuestionIndex + 1)
    ∧ (s.user ≠ none →
        checkpointFires s .nextQuestion = false
        ∧ (stepS .nextQuestion s).currentQuestionIndex = s.currentQuestionIndex + 1)
    ∧ (s.hasShownLoginPrompt = true →
        checkpointFires s .nextQuestion = false
        ∧ (stepS .nextQuestion s).currentQuestionIndex = s.currentQuestionIndex + 1)
    ∧ (∀ e : Event, s.hasShownLoginPrompt = true →
        (stepS e s).hasShownLoginPrompt = false → e = .signOut) := by
  have hiff : checkpointFires s .nextQuestion = true ↔
      (s.currentQuestionIndex + 1 = 25 ∧ s.user = none ∧ s.hasShownLoginPrompt = false) := by
    simp [checkpointFires, ha, hlt]
  have hstep : stepS .nextQuestion s = effectsS s (handleNextQuestion s) := by
    unfold stepS
    simp [ha, handle]
  refine ⟨hiff, ?_, ?_, ?_, ?_⟩
  · intro hf
    obtain ⟨h25, huser, hflag⟩ := hiff.1 hf
    have hpost : handleNextQuestion s
        = { s with showLoginModal := true, hasShownLoginPrompt := true } := by
      unfold handleNextQuestion
      simp [hlt, h25, huser, hflag]
    constructor
    · rw [hstep, hpost]
      exact effectsS_noop s _ rfl rfl rfl rfl
    · intro uid
      have ha' : avail (.loginSuccess uid)
          { s with showLoginModal := true, hasShownLoginPrompt := true } = true := by
        simp [avail, huser]
      have hstep' : stepS (.loginSuccess uid)
            { s with showLoginModal := true, hasShownLoginPrompt := true }
          = effectsS { s with showLoginModal := true, hasShownLoginPrompt := true }
              (handleLoginSuccess uid
                { s with showLoginModal := true, hasShownLoginPrompt := true }) := by
        unfold stepS
        simp [ha', handle]
      rw [hstep', (effectsS_frame _ _).2.2.1]
      rfl
  · intro hu
    have hguard : ¬ (s.currentQuestionIndex + 1 = 25 ∧ s.user = none ∧
        s.hasShownLoginPrompt = false) := by
      intro hc
      exact hu hc.2.1
    refine ⟨?_, ?_⟩
    · rw [← Bool.not_eq_true]
      intro hc
      exact hguard (hiff.1 hc)
    · have hpost : (handleNextQuestion s).currentQuestionIndex
          = s.currentQuestionIndex + 1 := by
        unfold handleNextQuestion
        simp only [if_pos hlt]
        rw [if_neg hguard]
      rw [hstep, (effectsS_frame _ _).2.2.1, hpost]
  · intro hflag
    have hguard : ¬ (s.currentQuestionIndex + 1 = 25 ∧ s.user = none ∧
        s.hasShownLoginPrompt = false) := by
      intro hc
      rw [hflag] at hc
      cases hc.2.2
    refine ⟨?_, ?_⟩
    · rw [← Bool.not_eq_true]
      intro hc
      exact hguard (hiff.1 hc)
    · have hpost : (handleNextQuestion s).currentQuestionIndex
          = s.currentQuestionIndex + 1 := by
        unfold handleNextQuestion
        simp only [if_pos hlt]
        rw [if_neg hguard]
      rw [hstep, (effectsS_frame _ _).2.2.1, hpost]
  · intro e hfl hdrop
    by_cases he : e = .signOut
    · exact he
    · rw [stepS_flag_stays s e hfl he] at hdrop
      cases hdrop

/-- A question of the concrete 26-question session used by the checkpoint
counterexample. -/
def traceQuestion (i : Nat) : Question := ⟨i + 1, "", [⟨"A", ""⟩], "A", ""⟩

/-- The concrete 26-question list sampled for both sessions of the
counterexample. -/
def examQuestions : List Question := (List.range 26).map traceQuestion

/-- Answer the current question with "A" and advance. -/
def answerRound : List Event := [.selectAnswer "A", .submitAnswer, .nextQuestion]

/-- First session of the counterexample: the unauthenticated user answers
all 26 questions; the checkpoint fires when advancing into index 25 and the
user continues anonymously; the exam completes, the user opens the review
summary and restarts. -/
def sessionOneEvents : List Event :=
  [.loadSuccess examQuestions]
  ++ (List.replicate 25 answerRound).flatten
  ++ [.closeLoginModal, .nextQuestion]
  ++ [.selectAnswer "A", .submitAnswer, .nextQuestion]
  ++ [.navExam, .restartExam]

/-- Second session of the counterexample (after the restart): the still
unauthenticated user answers up to question index 24 again. -/
def sessionTwoEvents : List Event :=
  (List.replicate 24 answerRound).flatten ++ [.selectAnswer "A", .submitAnswer]

set_option maxRecDepth 10000 in
/-- Counterexample to C2 as stated: the checkpoint fired during the first
session; after the restart a fresh session begins (index 0, empty answer
map, not in review), the checkpoint never fires anywhere in the second
session, and yet when the unauthenticated user advances out of feedback into
question index 25 — with the checkpoint never having fired this session —
no login prompt appears and the advance just proceeds to index 25, because
the `hasShownLoginPrompt` flag persists across the restart. -/
theorem checkpoint_not_refired_in_restarted_session :
    firesAlong initState sessionOneEvents = true
    ∧ (runS initState sessionOneEvents).userAnswers = []
    ∧ (runS initState sessionOneEvents).currentQuestionIndex = 0
    ∧ (runS initState sessionOneEvents).isReviewMode = false
    ∧ firesAlong (runS initState sessionOneEvents)
        (sessionTwoEvents ++ [.nextQuestion]) = false
    ∧ (runS (runS initState sessionOneEvents) sessionTwoEvents).user = none
    ∧ (runS (runS initState sessionOneEvents) sessionTwoEvents).showFeedback = true
    ∧ (runS (runS initState sessionOneEvents) sessionTwoEvents).currentQuestionIndex + 1
        = 25
    ∧ (stepS .nextQuestion
        (runS (runS initState sessionOneEvents) sessionTwoEvents)).showLoginModal = false
    ∧ (stepS .nextQuestion
        (runS (runS initState sessionOneEvents) sessionTwoEvents)).currentQuestionIndex
        = 25 := by
  decide

/-- A concrete state advancing out of feedback at question index 24 of the
26-question session, unauthenticated with the prompt flag unset. -/
def checkpointState : AppState :=
  { initState with
    questions := examQuestions
    currentQuestionIndex := 24
    showFeedback := true
    timerActive := false
    loadInFlight := false }

set_option maxRecDepth 2000 in
/-- Witness for the amended C2 at `checkpointState`: advancing fires the
checkpoint (modal opened, flag set, index suspended), and a successful login
resumes into index 25. -/
theorem checkpoint_fires_witness :
    stepS .nextQuestion checkpointState
      = { checkpointState with showLoginModal := true, hasShownLoginPrompt := true }
    ∧ (stepS (.loginSuccess "uid")
        { checkpointState with
          showLoginModal := true, hasShownLoginPrompt := true }).currentQuestionIndex
      = 25 := by
  have h := checkpoint_guarded_by_flag checkpointState (by decide) (by decide)
  have hf : checkpointFires checkpointState .nextQuestion = true := by decide
  exact ⟨(h.2.1 hf).1, (h.2.1 hf).2 "uid"⟩

end PracticeExam
